import Mathlib

/-!
Shallow embedding of `src/system-architecture.py` (ASDM-PRONO), the
prediction-serving and model-lifecycle coordination core:
`CacheManager`, `ModelUpdateManager`, `PredictionValidator` and
`PredictionManager`.

Python dictionaries holding a prediction are embedded as a record of
optional fields (`none` = key absent); a Python runtime exception
(KeyError on a missing dictionary key, TypeError on comparing `None`
with a number) is an `Except.error`; numbers are embedded as rationals.
Times are rationals counting seconds; `timedelta(hours=6)` is 21600
seconds.  External collaborators that the source calls but does not
define (`generate_prediction`, `collect_new_training_data`,
`train_new_models`, `evaluate_models`, `deploy_new_models`; the spec
lists them as the external PredictionEngine / ModelTrainer /
MetricsStore) are passed in as parameters holding their results.
-/

namespace ASDM

/-- A Python runtime exception, as far as the embedded code can raise one. -/
inductive PyErr where
  | keyError : PyErr
  | typeError : PyErr
deriving DecidableEq

/-- A prediction dictionary.  `none` in an outer `Option` means the key is
absent from the dictionary; `home_score`/`away_score` hold an inner
`Option` because the fallback prediction stores the value `None` (null)
under those keys.  `probabilities` is embedded as the list of values of
the probability mapping (only their sum is ever read), `features` as the
list of keys of the feature mapping (only membership is ever read). -/
structure PredDict where
  confidence : Option ℚ
  probabilities : Option (List ℚ)
  home_score : Option (Option ℚ)
  away_score : Option (Option ℚ)
  features : Option (List String)
  message : Option String
  timestamp : Option ℚ
deriving DecidableEq

/-! ## 1. CacheManager (src/system-architecture.py lines 15-41) -/

/-- `timedelta(hours=6)` in seconds. -/
def ttl_seconds : ℚ := 21600

/-- The Redis keyspace restricted to the `prediction:{match_id}` keys:
each match id maps to the stored (JSON round-tripped) prediction. -/
def CacheState : Type := String → Option PredDict

def empty_cache : CacheState := fun _ => none

/-- `CacheManager.get_cached_prediction` (lines 24-32).  Reads the key,
and on a hit returns the stored prediction only when
`timestamp > now - 6h`; otherwise returns `None`.  A stored entry with
no `timestamp` key would raise KeyError in the source
(`prediction[timestamp]`).  The returned state is the cache state
after the call: the source only issues a Redis GET, so it is unchanged. -/
def get_cached_prediction (st : CacheState) (now : ℚ) (match_id : String) :
    (Except PyErr (Option PredDict)) × CacheState :=
  match st match_id with
  | none => (.ok none, st)
  | some p =>
    match p.timestamp with
    | none => (.error .keyError, st)
    | some ts => if now - ttl_seconds < ts then (.ok (some p), st) else (.ok none, st)

/-- `CacheManager.cache_prediction` (lines 34-41).  The source first
mutates the prediction dictionary itself — `prediction[timestamp] =
datetime.now().isoformat()` — and then stores the serialized dictionary
under the key.  The first component is the (mutated) dictionary the
caller is left holding. -/
def cache_prediction (st : CacheState) (now : ℚ) (match_id : String) (p : PredDict) :
    PredDict × CacheState :=
  let p1 : PredDict := { p with timestamp := some now }
  (p1, fun k => if k = match_id then some p1 else st k)

/-! ## 2. ModelUpdateManager (src/system-architecture.py lines 44-99) -/

/-- A metrics snapshot as read by `should_update_models`: the
`accuracy`, `rmse` and `log_loss` entries of the metrics dictionary. -/
structure Metrics where
  accuracy : ℚ
  rmse : ℚ
  log_loss : ℚ
deriving DecidableEq

/-- `improvement_threshold = 0.02` (line 91). -/
def improvement_threshold : ℚ := 2/100

/-- The `metrics_comparison` dictionary of `should_update_models`
(lines 93-97), as its list of values in insertion order. -/
def metrics_comparison (current_metrics new_metrics : Metrics) : List ℚ :=
  [ new_metrics.accuracy - current_metrics.accuracy,
    current_metrics.rmse - new_metrics.rmse,
    current_metrics.log_loss - new_metrics.log_loss ]

/-- `ModelUpdateManager.should_update_models` (lines 89-99):
`all(imp > improvement_threshold for imp in metrics_comparison.values())`. -/
def should_update_models (current_metrics new_metrics : Metrics) : Bool :=
  (metrics_comparison current_metrics new_metrics).all fun imp =>
    decide (improvement_threshold < imp)

/-- The mutable state of a `ModelUpdateManager`:
`current_model_version` (initially 1.0) and the `models` slots
(initially both `None`; replaced wholesale by `deploy_new_models`).
`Model` is the opaque type of the trained models value. -/
structure ModelUpdateState (Model : Type) where
  current_model_version : ℚ
  models : Option Model
deriving DecidableEq

/-- The results of the external collaborators one run of the
`update_models` try-block consumes.  The source calls
`collect_new_training_data`, `evaluate_current_models`,
`train_new_models`, `evaluate_models` and `deploy_new_models`, none of
which is defined in the repository (the spec assigns them to the
external ModelTrainer / MetricsStore); each may raise, so each result
is an `Except`. -/
structure CycleInputs (Model Data : Type) where
  collect_new_training_data : Except PyErr Data
  evaluate_current_models : Data → Except PyErr Metrics
  train_new_models : Data → Except PyErr Model
  evaluate_models : Model → Data → Except PyErr Metrics
  deploy_new_models : Model → Except PyErr Unit

/-- The `try:` block of `ModelUpdateManager.update_models`
(lines 65-84): collect, evaluate current, train, evaluate new, and if
`should_update_models` holds, deploy and add 0.1 to
`current_model_version`.  Any raised exception aborts the block. -/
def update_models_body {Model Data : Type} (st : ModelUpdateState Model)
    (inp : CycleInputs Model Data) : Except PyErr (ModelUpdateState Model) := do
  let new_data ← inp.collect_new_training_data
  let current_metrics ← inp.evaluate_current_models new_data
  let new_models ← inp.train_new_models new_data
  let new_metrics ← inp.evaluate_models new_models new_data
  if should_update_models current_metrics new_metrics then do
    let _ ← inp.deploy_new_models new_models
    pure { current_model_version := st.current_model_version + 1/10
           models := some new_models }
  else
    pure st

/-- `ModelUpdateManager.update_models` (lines 62-87): the try-block
wrapped in `except Exception: logger.error(...)` — every exception is
caught, logged and swallowed, leaving the state unchanged.  The result
type is `Except` to state that the method itself never raises. -/
def update_models {Model Data : Type} (st : ModelUpdateState Model)
    (inp : CycleInputs Model Data) : Except PyErr (ModelUpdateState Model) :=
  match update_models_body st inp with
  | .ok st1 => .ok st1
  | .error _ => .ok st

/-- One wake-up of the `while True` loop of
`ModelUpdateManager.schedule_model_update` (lines 53-60): run
`update_models` when the wall-clock hour is 3, otherwise sleep through. -/
def schedule_tick {Model Data : Type} (st : ModelUpdateState Model)
    (current_hour : ℕ) (inp : CycleInputs Model Data) :
    Except PyErr (ModelUpdateState Model) :=
  if current_hour = 3 then update_models st inp else .ok st

/-- The `schedule_model_update` loop run over a finite trace of
wake-ups, each carrying the wall-clock hour observed and the external
results a cycle fired at that wake-up would consume.  The loop body
itself raises no exception, so the fold is the whole story: an
exception value would end the loop. -/
def schedule_model_update {Model Data : Type} (st0 : ModelUpdateState Model)
    (trace : List (ℕ × CycleInputs Model Data)) :
    Except PyErr (ModelUpdateState Model) :=
  trace.foldlM (fun st e => schedule_tick st e.1 e.2) st0

/-! ### The update lock (lines 51 and 64)

`update_models` runs its whole body inside `async with self.update_lock`
on the single shared `asyncio.Lock` created in `__init__`.  The lock
discipline is embedded as a transition system over the concurrent tasks
that may call `update_models`: a task is `idle` outside the method,
`waiting` once it has entered and is suspended on the lock, and
`cycling` while it holds the lock and runs the collect-train-evaluate-
promote sequence.  `async with` releases the lock on every exit of the
block — normal completion with promotion, normal completion without
promotion (rejection), and exception propagation out of the block — so
the system has one release transition per exit path. -/

/-- Where a task stands with respect to `update_models`. -/
inductive UpdatePhase where
  | idle : UpdatePhase
  | waiting : UpdatePhase
  | cycling : UpdatePhase
deriving DecidableEq

/-- The shared lock (`none` = unlocked, `some i` = held by task `i`)
together with the phase of each task, for `n` concurrent tasks. -/
structure SchedState (n : ℕ) where
  update_lock : Option (Fin n)
  phase : Fin n → UpdatePhase

/-- Initially the lock is free and no task is inside `update_models`. -/
def sched_init (n : ℕ) : SchedState n := ⟨none, fun _ => .idle⟩

/-- The transitions of the update-lock discipline. -/
inductive SchedStep {n : ℕ} : SchedState n → SchedState n → Prop where
  | trigger (s : SchedState n) (i : Fin n) :
      s.phase i = .idle →
      SchedStep s ⟨s.update_lock, Function.update s.phase i .waiting⟩
  | acquire (s : SchedState n) (i : Fin n) :
      s.phase i = .waiting → s.update_lock = none →
      SchedStep s ⟨some i, Function.update s.phase i .cycling⟩
  | release_promote (s : SchedState n) (i : Fin n) :
      s.phase i = .cycling → s.update_lock = some i →
      SchedStep s ⟨none, Function.update s.phase i .idle⟩
  | release_reject (s : SchedState n) (i : Fin n) :
      s.phase i = .cycling → s.update_lock = some i →
      SchedStep s ⟨none, Function.update s.phase i .idle⟩
  | release_failure (s : SchedState n) (i : Fin n) :
      s.phase i = .cycling → s.update_lock = some i →
      SchedStep s ⟨none, Function.update s.phase i .idle⟩

/-- States reachable from the initial state by lock-discipline steps. -/
inductive SchedReachable {n : ℕ} : SchedState n → Prop where
  | init : SchedReachable (sched_init n)
  | step {s s2 : SchedState n} :
      SchedReachable s → SchedStep s s2 → SchedReachable s2

/-! ## 3. PredictionValidator (src/system-architecture.py lines 102-140) -/

/-- `validation_thresholds[confidence_min]`. -/
def confidence_min : ℚ := 6/10

/-- `validation_thresholds[probability_sum_max]`. -/
def probability_sum_max : ℚ := 11/10

/-- `validation_thresholds[max_goals]`. -/
def max_goals : ℚ := 10

/-- The rejection / acceptance strings returned by `validate_prediction`. -/
def msg_low_confidence : String := "Confiance insuffisante"

def msg_inconsistent_probabilities : String := "Probabilités incohérentes"

def msg_score_out_of_range : String := "Scores prédits anormalement élevés"

def msg_missing_features : String := "Données d\x27entrée invalides ou incomplètes"

def msg_valid : String := "Prédiction valide"

/-- `required_features` of `validate_input_features` (lines 133-138). -/
def required_features : List String :=
  ["team_form", "historical_performance", "player_statistics", "weather_conditions"]

/-- `PredictionValidator.validate_input_features` (lines 131-140):
`all(feature in features for feature in required_features)`. -/
def validate_input_features (features : List String) : Bool :=
  required_features.all fun f => features.contains f

/-- `PredictionValidator.validate_prediction` (lines 110-129), with the
source evaluation order made explicit: each dictionary access may raise
KeyError; comparing a null score with `max_goals` raises TypeError; the
`or` between the two score comparisons short-circuits.  Returns the
`(bool, str)` pair of the source. -/
def validate_prediction (p : PredDict) : Except PyErr (Bool × String) :=
  match p.confidence with
  | none => .error .keyError
  | some c =>
    if c < confidence_min then .ok (false, msg_low_confidence)
    else
      match p.probabilities with
      | none => .error .keyError
      | some probs =>
        if probability_sum_max < probs.sum then .ok (false, msg_inconsistent_probabilities)
        else
          match p.home_score with
          | none => .error .keyError
          | some none => .error .typeError
          | some (some h) =>
            if max_goals < h then .ok (false, msg_score_out_of_range)
            else
              match p.away_score with
              | none => .error .keyError
              | some none => .error .typeError
              | some (some a) =>
                if max_goals < a then .ok (false, msg_score_out_of_range)
                else
                  match p.features with
                  | none => .error .keyError
                  | some fs =>
                    if !validate_input_features fs then .ok (false, msg_missing_features)
                    else .ok (true, msg_valid)

/-! ## 4. PredictionManager (src/system-architecture.py lines 143-177) -/

/-- `PredictionManager.get_fallback_prediction` (lines 170-177). -/
def get_fallback_prediction : PredDict :=
  { confidence := some 0
    probabilities := none
    home_score := some none
    away_score := some none
    features := none
    message := some "Prédiction impossible - données insuffisantes"
    timestamp := none }

/-- `PredictionManager.get_prediction` (lines 149-168).
`engine_prediction` is the value the undefined external
`generate_prediction` (the spec PredictionEngine) would return for this
match.  Returns the prediction handed to the caller together with the
cache state after the call, or the propagated exception. -/
def get_prediction (st : CacheState) (now : ℚ) (match_id : String)
    (engine_prediction : PredDict) : Except PyErr (PredDict × CacheState) :=
  match (get_cached_prediction st now match_id).1 with
  | .error e => .error e
  | .ok (some cached) => .ok (cached, st)
  | .ok none =>
    match validate_prediction engine_prediction with
    | .error e => .error e
    | .ok (false, _) => .ok (get_fallback_prediction, st)
    | .ok (true, _) =>
      let r := cache_prediction st now match_id engine_prediction
      .ok (r.1, r.2)

/-! ## Spec-side reference definitions (for refinement comparison) -/

/-- The spec `ValidationOutcome.reason` enumeration (spec section 3). -/
inductive Reason where
  | lowConfidence : Reason
  | inconsistentProbabilities : Reason
  | scoreOutOfRange : Reason
  | missingFeatures : Reason
  | ok : Reason
deriving DecidableEq

/-- The source string carried by each spec-level reason. -/
def reason_message : Reason → String
  | .lowConfidence => msg_low_confidence
  | .inconsistentProbabilities => msg_inconsistent_probabilities
  | .scoreOutOfRange => msg_score_out_of_range
  | .missingFeatures => msg_missing_features
  | .ok => msg_valid

/-- Modelled from the spec, section 4.2, for comparison with
`validate_prediction`: the four checks in order, first failing reason
wins — (1) `confidence >= 0.6`, (2) probability sum `<= 1.1`, (3) both
scores `<= 10`, (4) `features` a superset of the four required names. -/
def validateSpec (c : ℚ) (probs : List ℚ) (h a : ℚ) (fs : List String) : Bool × Reason :=
  if confidence_min ≤ c then
    if probs.sum ≤ probability_sum_max then
      if h ≤ max_goals ∧ a ≤ max_goals then
        if ∀ f ∈ required_features, f ∈ fs then (true, .ok)
        else (false, .missingFeatures)
      else (false, .scoreOutOfRange)
    else (false, .inconsistentProbabilities)
  else (false, .lowConfidence)

/-! ## Concrete sample values used by witnesses and counterexamples -/

/-- A well-formed prediction that passes all four checks. -/
def sample_ok : PredDict :=
  { confidence := some (8/10)
    probabilities := some [55/100, 25/100, 20/100]
    home_score := some (some 2)
    away_score := some (some 1)
    features := some required_features
    message := none
    timestamp := none }

/-- A prediction whose features lack `weather_conditions` and whose
confidence is also below threshold. -/
def sample_low_conf_no_weather : PredDict :=
  { confidence := some (1/2)
    probabilities := some [1/2, 1/4, 1/4]
    home_score := some (some 2)
    away_score := some (some 1)
    features := some ["team_form", "historical_performance", "player_statistics"]
    message := none
    timestamp := none }

/-- Cycle inputs where every external call succeeds and the candidate
metrics beat the current ones on all three tracked metrics. -/
def cycle_inputs_promote : CycleInputs ℕ ℕ :=
  { collect_new_training_data := .ok 0
    evaluate_current_models := fun _ => .ok ⟨7/10, 1, 1/2⟩
    train_new_models := fun _ => .ok 42
    evaluate_models := fun _ _ => .ok ⟨73/100, 95/100, 47/100⟩
    deploy_new_models := fun _ => .ok () }

/-- Cycle inputs where data collection raises. -/
def cycle_inputs_fail : CycleInputs ℕ ℕ :=
  { collect_new_training_data := .error .keyError
    evaluate_current_models := fun _ => .error .keyError
    train_new_models := fun _ => .error .keyError
    evaluate_models := fun _ _ => .error .keyError
    deploy_new_models := fun _ => .error .keyError }

/-! # Theorems -/

/-! ## Shared helper lemmas -/

lemma validate_input_features_iff (fs : List String) :
    validate_input_features fs = true ↔ ∀ f ∈ required_features, f ∈ fs := by
  simp [validate_input_features]

lemma validate_prediction_wf_eq (c : ℚ) (probs : List ℚ) (h a : ℚ) (fs : List String)
    (m : Option String) (ts : Option ℚ) :
    validate_prediction ⟨some c, some probs, some (some h), some (some a), some fs, m, ts⟩
      = .ok ((validateSpec c probs h a fs).1,
             reason_message (validateSpec c probs h a fs).2) := by
  rcases lt_or_le c confidence_min with h1 | h1
  · simp [validate_prediction, validateSpec, reason_message, h1, h1.not_le]
  · rcases lt_or_le probability_sum_max probs.sum with h2 | h2
    · simp [validate_prediction, validateSpec, reason_message, h1, not_lt.2 h1, h2, h2.not_le]
    · rcases lt_or_le max_goals h with h3 | h3
      · simp [validate_prediction, validateSpec, reason_message, h1, not_lt.2 h1, h2,
          not_lt.2 h2, h3, h3.not_le]
      · rcases lt_or_le max_goals a with h4 | h4
        · simp [validate_prediction, validateSpec, reason_message, h1, not_lt.2 h1, h2,
            not_lt.2 h2, h3, not_lt.2 h3, h4, h4.not_le]
        · rcases Bool.eq_false_or_eq_true (validate_input_features fs) with h5 | h5
          · have h5s : ∀ f ∈ required_features, f ∈ fs := (validate_input_features_iff fs).1 h5
            simp [validate_prediction, validateSpec, reason_message, h1, not_lt.2 h1, h2,
              not_lt.2 h2, h3, not_lt.2 h3, h4, not_lt.2 h4, h5, if_pos h5s]
          · have h5s : ¬ ∀ f ∈ required_features, f ∈ fs := by
              rw [← validate_input_features_iff, h5]; simp
            simp [validate_prediction, validateSpec, reason_message, h1, not_lt.2 h1, h2,
              not_lt.2 h2, h3, not_lt.2 h3, h4, not_lt.2 h4, h5, h5s]

lemma validateSpec_true_iff (c : ℚ) (probs : List ℚ) (h a : ℚ) (fs : List String) :
    (validateSpec c probs h a fs).1 = true ↔
      (confidence_min ≤ c ∧ probs.sum ≤ probability_sum_max ∧
       (h ≤ max_goals ∧ a ≤ max_goals) ∧ validate_input_features fs = true) := by
  unfold validateSpec
  split_ifs with h1 h2 h3 h4
  · simp only [validate_input_features_iff]
    simp [h1, h2, h3]
    exact h4
  · simp [validate_input_features_iff, h4]
  · simp [h3]
  · simp [h2]
  · simp [h1]

/-! ## C2 — promotion gating -/

/-- C2: for every pair of metric snapshots (current, candidate), the
promotion decision `should_update_models` is true iff all three of
(candidate.accuracy - current.accuracy), (current.rmse - candidate.rmse)
and (current.log_loss - candidate.log_loss) strictly exceed 0.02, and a
regression in any single tracked metric blocks promotion. -/
theorem promotion_gate_strict_and (cur new : Metrics) :
    (should_update_models cur new = true ↔
      ((2/100 : ℚ) < new.accuracy - cur.accuracy ∧
       (2/100 : ℚ) < cur.rmse - new.rmse ∧
       (2/100 : ℚ) < cur.log_loss - new.log_loss)) ∧
    (new.accuracy ≤ cur.accuracy → should_update_models cur new = false) ∧
    (cur.rmse ≤ new.rmse → should_update_models cur new = false) ∧
    (cur.log_loss ≤ new.log_loss → should_update_models cur new = false) := by
  have hiff : should_update_models cur new = true ↔
      ((2/100 : ℚ) < new.accuracy - cur.accuracy ∧
       (2/100 : ℚ) < cur.rmse - new.rmse ∧
       (2/100 : ℚ) < cur.log_loss - new.log_loss) := by
    simp [should_update_models, metrics_comparison, improvement_threshold]
  refine ⟨hiff, ?_, ?_, ?_⟩
  · intro hle
    rcases Bool.eq_false_or_eq_true (should_update_models cur new) with hb | hb
    · exact absurd (hiff.mp hb).1 (by linarith)
    · exact hb
  · intro hle
    rcases Bool.eq_false_or_eq_true (should_update_models cur new) with hb | hb
    · exact absurd (hiff.mp hb).2.1 (by linarith)
    · exact hb
  · intro hle
    rcases Bool.eq_false_or_eq_true (should_update_models cur new) with hb | hb
    · exact absurd (hiff.mp hb).2.2 (by linarith)
    · exact hb

/-- Witness for C2: the spec example promotes (deltas 0.03/0.05/0.03)
and an accuracy regression blocks promotion. -/
theorem promotion_gate_strict_and_witness :
    should_update_models ⟨7/10, 1, 1/2⟩ ⟨73/100, 95/100, 47/100⟩ = true ∧
    should_update_models ⟨7/10, 1, 1/2⟩ ⟨69/100, 95/100, 47/100⟩ = false := by
  constructor
  · exact (promotion_gate_strict_and ⟨7/10, 1, 1/2⟩ ⟨73/100, 95/100, 47/100⟩).1.mpr
      (by norm_num)
  · exact (promotion_gate_strict_and ⟨7/10, 1, 1/2⟩ ⟨69/100, 95/100, 47/100⟩).2.1
      (by norm_num)

/-! ## C3 — TTL correctness -/

/-- C3: for every cached entry created at time `ts`, a get at any time
`t < ts + 6h` returns the stored value and a get at `t ≥ ts + 6h`
returns absent; a missing key yields absent, never a failure; the get
leaves the cache state unchanged on every path. -/
theorem ttl_correctness (st : CacheState) (match_id : String) (t : ℚ) :
    (∀ p ts, st match_id = some p → p.timestamp = some ts →
      ((t < ts + ttl_seconds →
          get_cached_prediction st t match_id = (.ok (some p), st)) ∧
       (ts + ttl_seconds ≤ t →
          get_cached_prediction st t match_id = (.ok none, st)))) ∧
    (st match_id = none → get_cached_prediction st t match_id = (.ok none, st)) ∧
    (get_cached_prediction st t match_id).2 = st := by
  refine ⟨?_, ?_, ?_⟩
  · intro p ts hst hts
    constructor
    · intro hlt
      have hc : t - ttl_seconds < ts := by linarith
      simp [get_cached_prediction, hst, hts, hc]
    · intro hge
      have hc : ¬ t - ttl_seconds < ts := not_lt.2 (by linarith)
      simp [get_cached_prediction, hst, hts, hc]
  · intro hnone
    simp [get_cached_prediction, hnone]
  · rcases hst : st match_id with _ | p
    · simp [get_cached_prediction, hst]
    · rcases hts : p.timestamp with _ | ts
      · simp [get_cached_prediction, hst, hts]
      · by_cases hc : t - ttl_seconds < ts <;>
          simp [get_cached_prediction, hst, hts, hc]

/-- Witness for C3: caching at time 0 gives a hit at `t = 100` and a
miss at exactly `t = 21600` (six hours). -/
theorem ttl_correctness_witness :
    get_cached_prediction (cache_prediction empty_cache 0 "M1" sample_ok).2 100 "M1"
      = (.ok (some { sample_ok with timestamp := some 0 }),
         (cache_prediction empty_cache 0 "M1" sample_ok).2) ∧
    get_cached_prediction (cache_prediction empty_cache 0 "M1" sample_ok).2 21600 "M1"
      = (.ok none, (cache_prediction empty_cache 0 "M1" sample_ok).2) := by
  constructor
  · exact ((ttl_correctness (cache_prediction empty_cache 0 "M1" sample_ok).2 "M1" 100).1
      { sample_ok with timestamp := some 0 } 0 (by norm_num [cache_prediction]) rfl).1
      (by norm_num [ttl_seconds])
  · exact ((ttl_correctness (cache_prediction empty_cache 0 "M1" sample_ok).2 "M1" 21600).1
      { sample_ok with timestamp := some 0 } 0 (by norm_num [cache_prediction]) rfl).2
      (by norm_num [ttl_seconds])

/-! ## C4 — fallback on rejection -/

/-- C4: on a cache miss, if the Validator rejects the freshly generated
prediction, `get_prediction` returns the fallback prediction (null
scores, confidence 0, explanatory message) without raising and leaves
the cache state unchanged — so the rejected prediction is never
memoized and later gets for the key read the untouched prior state. -/
theorem fallback_on_rejection (st : CacheState) (t : ℚ) (match_id : String)
    (ep : PredDict) (m : String)
    (hmiss : (get_cached_prediction st t match_id).1 = .ok none)
    (hrej : validate_prediction ep = .ok (false, m)) :
    get_prediction st t match_id ep = .ok (get_fallback_prediction, st) ∧
    get_fallback_prediction.home_score = some none ∧
    get_fallback_prediction.away_score = some none ∧
    get_fallback_prediction.confidence = some 0 ∧
    get_fallback_prediction.message =
      some "Prédiction impossible - données insuffisantes" := by
  refine ⟨?_, rfl, rfl, rfl, rfl⟩
  simp only [get_prediction, hmiss, hrej]

/-- Witness for C4: a low-confidence prediction on an empty cache. -/
theorem fallback_on_rejection_witness :
    get_prediction empty_cache 0 "M1" sample_low_conf_no_weather
      = .ok (get_fallback_prediction, empty_cache) :=
  (fallback_on_rejection empty_cache 0 "M1" sample_low_conf_no_weather
    msg_low_confidence rfl
    (by norm_num [validate_prediction, sample_low_conf_no_weather, confidence_min])).1

/-! ## C5 — validator check order -/

/-- C5: over every prediction carrying all the read keys with numeric
scores, `validate_prediction` returns (no exception) exactly the
outcome of the spec validator `validateSpec` — the four checks in the
fixed order confidence / probability-sum / scores / features, first
failing reason wins — and the spec validator accepts iff all four
checks pass. -/
theorem validator_refines_spec (c : ℚ) (probs : List ℚ) (h a : ℚ) (fs : List String)
    (m : Option String) (ts : Option ℚ) :
    validate_prediction ⟨some c, some probs, some (some h), some (some a), some fs, m, ts⟩
      = .ok ((validateSpec c probs h a fs).1,
             reason_message (validateSpec c probs h a fs).2) ∧
    ((validateSpec c probs h a fs).1 = true ↔
      (confidence_min ≤ c ∧ probs.sum ≤ probability_sum_max ∧
       (h ≤ max_goals ∧ a ≤ max_goals) ∧ validate_input_features fs = true)) := by
  exact ⟨validate_prediction_wf_eq c probs h a fs m ts, validateSpec_true_iff c probs h a fs⟩

/-- Witness for C5: a fully well-formed prediction is accepted with the
source acceptance string. -/
theorem validator_refines_spec_witness :
    validate_prediction
      ⟨some (8/10), some [55/100, 25/100, 20/100], some (some 2), some (some 1),
       some required_features, none, none⟩ = .ok (true, msg_valid) := by
  have h5 := validator_refines_spec (8/10) [55/100, 25/100, 20/100] 2 1
    required_features none none
  have hv : validateSpec (8/10) [55/100, 25/100, 20/100] 2 1 required_features
      = (true, .ok) := by
    norm_num [validateSpec, confidence_min, probability_sum_max, max_goals, required_features]
  rw [h5.1, hv]
  simp [reason_message]

/-! ## C7 — cache hit served as-is -/

/-- C7: on a fresh cache hit `get_prediction` returns the cached payload
as-is, with no re-validation possible (the result does not depend on the
engine prediction at all); and after a first accepted request is cached
at `t0`, a second request at any `t < t0 + 6h` returns the identical
payload, again independently of the engine. -/
theorem cache_hit_returned_as_is (st : CacheState) (t : ℚ) (match_id : String)
    (p : PredDict) (e1 e2 : PredDict)
    (hhit : (get_cached_prediction st t match_id).1 = .ok (some p)) :
    get_prediction st t match_id e1 = .ok (p, st) ∧
    get_prediction st t match_id e1 = get_prediction st t match_id e2 ∧
    (∀ (st0 : CacheState) (t0 : ℚ) (ep : PredDict) (m : String),
      (get_cached_prediction st0 t0 match_id).1 = .ok none →
      validate_prediction ep = .ok (true, m) →
      t < t0 + ttl_seconds →
      get_prediction st0 t0 match_id ep
        = .ok ((cache_prediction st0 t0 match_id ep).1,
               (cache_prediction st0 t0 match_id ep).2) ∧
      get_prediction (cache_prediction st0 t0 match_id ep).2 t match_id e2
        = .ok ((cache_prediction st0 t0 match_id ep).1,
               (cache_prediction st0 t0 match_id ep).2)) := by
  refine ⟨?_, ?_, ?_⟩
  · simp only [get_prediction, hhit]
  · simp only [get_prediction, hhit]
  · intro st0 t0 ep m h0 hv hlt
    constructor
    · simp only [get_prediction, h0, hv]
    · have hts : t - ttl_seconds < t0 := by linarith
      simp [get_prediction, get_cached_prediction, cache_prediction, hts]

/-- Witness for C7: after caching at time 0, a request at time 100 for
the same match returns the stored payload even though the engine would
now produce the fallback-shaped value. -/
theorem cache_hit_returned_as_is_witness :
    get_prediction (cache_prediction empty_cache 0 "M1" sample_ok).2 100 "M1"
        get_fallback_prediction
      = .ok ({ sample_ok with timestamp := some 0 },
             (cache_prediction empty_cache 0 "M1" sample_ok).2) :=
  (cache_hit_returned_as_is (cache_prediction empty_cache 0 "M1" sample_ok).2 100 "M1"
    { sample_ok with timestamp := some 0 } get_fallback_prediction get_fallback_prediction
    (by norm_num [get_cached_prediction, cache_prediction, ttl_seconds])).1

/-! ## C8 — missing weather_conditions (corrected) -/

/-- C8 counterexample: a prediction whose features lack
`weather_conditions` but whose confidence is also below threshold is
rejected with the low-confidence reason, not the missing-features
reason — the first failing check wins, so the claimed reason does not
hold regardless of the other fields. -/
theorem missing_weather_reason_counterexample :
    sample_low_conf_no_weather.features
      = some ["team_form", "historical_performance", "player_statistics"] ∧
    "weather_conditions" ∉ (["team_form", "historical_performance",
      "player_statistics"] : List String) ∧
    validate_prediction sample_low_conf_no_weather = .ok (false, msg_low_confidence) ∧
    msg_low_confidence ≠ msg_missing_features := by
  refine ⟨rfl, by decide, ?_, by decide⟩
  norm_num [validate_prediction, sample_low_conf_no_weather, confidence_min]

/-- C8 (amended): a well-formed prediction whose features lack
`weather_conditions` is always rejected — never accepted — whatever its
other field values; the single reported reason is MissingFeatures
exactly when the three earlier checks pass, and otherwise is the first
earlier failing reason. -/
theorem missing_weather_always_rejected (c : ℚ) (probs : List ℚ) (h a : ℚ)
    (fs : List String) (m : Option String) (ts : Option ℚ)
    (hw : "weather_conditions" ∉ fs) :
    (∃ msg, validate_prediction
        ⟨some c, some probs, some (some h), some (some a), some fs, m, ts⟩
      = .ok (false, msg)) ∧
    (confidence_min ≤ c → probs.sum ≤ probability_sum_max →
      h ≤ max_goals → a ≤ max_goals →
      validate_prediction
          ⟨some c, some probs, some (some h), some (some a), some fs, m, ts⟩
        = .ok (false, msg_missing_features)) := by
  have hvf : validate_input_features fs = false := by
    rcases Bool.eq_false_or_eq_true (validate_input_features fs) with ht | hf
    · exact absurd ((validate_input_features_iff fs).1 ht "weather_conditions"
        (by simp [required_features])) hw
    · exact hf
  have hnotall : ¬ ∀ f ∈ required_features, f ∈ fs := fun hall =>
    hw (hall "weather_conditions" (by simp [required_features]))
  constructor
  · rw [validate_prediction_wf_eq]
    have hfalse : (validateSpec c probs h a fs).1 = false := by
      rcases Bool.eq_false_or_eq_true (validateSpec c probs h a fs).1 with ht | hf
      · exact absurd ((validateSpec_true_iff c probs h a fs).1 ht).2.2.2 (by simp [hvf])
      · exact hf
    exact ⟨reason_message (validateSpec c probs h a fs).2, by rw [hfalse]⟩
  · intro hc hsum hh ha
    rw [validate_prediction_wf_eq]
    have hspec : validateSpec c probs h a fs = (false, .missingFeatures) := by
      unfold validateSpec
      rw [if_pos hc, if_pos hsum, if_pos ⟨hh, ha⟩, if_neg hnotall]
    rw [hspec]
    simp [reason_message]

/-- Witness for the amended C8 theorem: a prediction missing only
`weather_conditions`, with every other check passing, is rejected with
the missing-features reason. -/
theorem missing_weather_always_rejected_witness :
    validate_prediction
      ⟨some (8/10), some [1], some (some 2), some (some 1),
       some ["team_form", "historical_performance", "player_statistics"], none, none⟩
      = .ok (false, msg_missing_features) :=
  (missing_weather_always_rejected (8/10) [1] 2 1
    ["team_form", "historical_performance", "player_statistics"] none none
    (by decide)).2
    (by norm_num [confidence_min]) (by norm_num [probability_sum_max])
    (by norm_num [max_goals]) (by norm_num [max_goals])

/-! ## C9 — payload immutability (corrected) -/

/-- C9 counterexample: the engine prediction `sample_ok` carries no
timestamp key, yet after an accepted `get_prediction` both the returned
payload and the cached payload are `sample_ok` with `timestamp = 100`
added: the cache set stamps createdAt by writing into the prediction
payload itself, so the payload is not returned or stored unaltered. -/
theorem cache_set_mutates_payload_counterexample :
    sample_ok.timestamp = none ∧
    (get_prediction empty_cache 100 "M1" sample_ok).map (fun r => r.1)
      = .ok { sample_ok with timestamp := some 100 } ∧
    (get_prediction empty_cache 100 "M1" sample_ok).map (fun r => r.2 "M1")
      = .ok (some { sample_ok with timestamp := some 100 }) ∧
    ({ sample_ok with timestamp := some 100 } : PredDict) ≠ sample_ok := by
  refine ⟨rfl, ?_, ?_, ?_⟩
  · norm_num [get_prediction, get_cached_prediction, empty_cache, cache_prediction,
      validate_prediction, sample_ok, confidence_min, probability_sum_max, max_goals,
      validate_input_features, required_features, Except.map]
  · norm_num [get_prediction, get_cached_prediction, empty_cache, cache_prediction,
      validate_prediction, sample_ok, confidence_min, probability_sum_max, max_goals,
      validate_input_features, required_features, Except.map]
  · simp [sample_ok]

/-- C9 (amended): on an accepted fresh prediction, the spec-level
Prediction fields (confidence, probabilities, scores, features, message)
are returned and cached unchanged, and validation and retrieval change
nothing; but the cache set stamps createdAt by writing the `timestamp`
key into the payload itself: what is returned and stored is exactly the
engine payload with `timestamp := now`. -/
theorem prediction_payload_stamped (st : CacheState) (t : ℚ) (match_id : String)
    (ep : PredDict) (m : String)
    (hmiss : (get_cached_prediction st t match_id).1 = .ok none)
    (hacc : validate_prediction ep = .ok (true, m)) :
    get_prediction st t match_id ep
      = .ok ({ ep with timestamp := some t }, (cache_prediction st t match_id ep).2) ∧
    (cache_prediction st t match_id ep).1 = { ep with timestamp := some t } ∧
    ({ ep with timestamp := some t } : PredDict).confidence = ep.confidence ∧
    ({ ep with timestamp := some t } : PredDict).probabilities = ep.probabilities ∧
    ({ ep with timestamp := some t } : PredDict).home_score = ep.home_score ∧
    ({ ep with timestamp := some t } : PredDict).away_score = ep.away_score ∧
    ({ ep with timestamp := some t } : PredDict).features = ep.features ∧
    ({ ep with timestamp := some t } : PredDict).message = ep.message ∧
    (cache_prediction st t match_id ep).2 match_id
      = some { ep with timestamp := some t } := by
  refine ⟨?_, rfl, rfl, rfl, rfl, rfl, rfl, rfl, ?_⟩
  · simp only [get_prediction, hmiss, hacc, cache_prediction]
  · simp [cache_prediction]

/-- Witness for the amended C9 theorem at a concrete accepted request. -/
theorem prediction_payload_stamped_witness :
    get_prediction empty_cache 100 "M1" sample_ok
      = .ok ({ sample_ok with timestamp := some 100 },
             (cache_prediction empty_cache 100 "M1" sample_ok).2) :=
  (prediction_payload_stamped empty_cache 100 "M1" sample_ok msg_valid rfl
    (by norm_num [validate_prediction, sample_ok, confidence_min, probability_sum_max,
      max_goals, validate_input_features, required_features])).1

/-! ## C10 — validator partiality (corrected) -/

/-- C10 counterexample: validating the fallback prediction — null
scores, probabilities and features keys absent — raises no exception:
its confidence 0 fails the first check, so `validate_prediction`
returns the low-confidence rejection outcome. -/
theorem fallback_validates_without_exception :
    get_fallback_prediction.home_score = some none ∧
    get_fallback_prediction.away_score = some none ∧
    get_fallback_prediction.probabilities = none ∧
    get_fallback_prediction.features = none ∧
    validate_prediction get_fallback_prediction = .ok (false, msg_low_confidence) := by
  refine ⟨rfl, rfl, rfl, rfl, ?_⟩
  norm_num [validate_prediction, get_fallback_prediction, confidence_min]

/-- C10 (amended): `validate_prediction` is total on predictions
carrying all read keys with numeric scores; it raises only when
evaluation reaches a missing key or a null-score comparison — a missing
confidence key always raises KeyError, a null home score raises
TypeError once the confidence and probability checks pass — while the
fallback prediction itself is rejected with the low-confidence reason
without raising, since its confidence 0 fails the first check. -/
theorem validator_partiality :
    (∀ (c : ℚ) (probs : List ℚ) (h a : ℚ) (fs : List String)
        (m : Option String) (ts : Option ℚ),
      ∃ r, validate_prediction
          ⟨some c, some probs, some (some h), some (some a), some fs, m, ts⟩
        = .ok r) ∧
    (∀ p : PredDict, p.confidence = none → validate_prediction p = .error .keyError) ∧
    (∀ (p : PredDict) (c : ℚ) (probs : List ℚ),
      p.confidence = some c → confidence_min ≤ c →
      p.probabilities = some probs → probs.sum ≤ probability_sum_max →
      p.home_score = some none → validate_prediction p = .error .typeError) ∧
    validate_prediction get_fallback_prediction = .ok (false, msg_low_confidence) := by
  refine ⟨?_, ?_, ?_, ?_⟩
  · intro c probs h a fs m ts
    exact ⟨_, validate_prediction_wf_eq c probs h a fs m ts⟩
  · intro p hp
    simp [validate_prediction, hp]
  · intro p c probs hc hcm hp hsum hh
    simp [validate_prediction, hc, hp, hh, not_lt.2 hcm, not_lt.2 hsum]
  · norm_num [validate_prediction, get_fallback_prediction, confidence_min]

/-- Witness for the amended C10 theorem: a wholly empty dictionary
raises KeyError; a null home score with passing confidence and
probabilities raises TypeError. -/
theorem validator_partiality_witness :
    validate_prediction ⟨none, none, none, none, none, none, none⟩
      = .error .keyError ∧
    validate_prediction ⟨some 1, some [1], some none, some (some 1), none, none, none⟩
      = .error .typeError := by
  constructor
  · exact validator_partiality.2.1 ⟨none, none, none, none, none, none, none⟩ rfl
  · exact validator_partiality.2.2.1
      ⟨some 1, some [1], some none, some (some 1), none, none, none⟩ 1 [1]
      rfl (by norm_num [confidence_min]) rfl (by norm_num [probability_sum_max]) rfl

/-! ## C6 — update-cycle error containment -/

lemma update_models_never_raises {Model Data : Type} (st : ModelUpdateState Model)
    (inp : CycleInputs Model Data) : ∃ st1, update_models st inp = .ok st1 := by
  cases hb : update_models_body st inp with
  | error e => exact ⟨st, by simp [update_models, hb]⟩
  | ok st1 => exact ⟨st1, by simp [update_models, hb]⟩

lemma schedule_model_update_never_raises {Model Data : Type}
    (trace : List (ℕ × CycleInputs Model Data)) :
    ∀ st0 : ModelUpdateState Model, ∃ st1, schedule_model_update st0 trace = .ok st1 := by
  induction trace with
  | nil => exact fun st0 => ⟨st0, rfl⟩
  | cons e tr ih =>
    intro st0
    have htick : ∃ s1, schedule_tick st0 e.1 e.2 = .ok s1 := by
      unfold schedule_tick
      split
      · exact update_models_never_raises st0 e.2
      · exact ⟨st0, rfl⟩
    obtain ⟨s1, hs1⟩ := htick
    obtain ⟨s2, hs2⟩ := ih s1
    refine ⟨s2, ?_⟩
    unfold schedule_model_update at hs2 ⊢
    rw [List.foldlM_cons, hs1]
    simpa [Bind.bind, Except.bind] using hs2

/-- C6: the update cycle never propagates an error and changes state
only on promotion — when every external step succeeds and the Evaluator
promotes, the models are replaced and the version rises by exactly 0.1;
when it rejects, the state is unchanged; when any step fails, the
exception is swallowed and the state unchanged; and the scheduler loop
processes an arbitrary trace of wake-ups without any cycle failure
terminating it. -/
theorem update_cycle_error_containment {Model Data : Type}
    (st : ModelUpdateState Model) (inp : CycleInputs Model Data) :
    (∀ e, update_models_body st inp = .error e → update_models st inp = .ok st) ∧
    (∀ (d : Data) (cur : Metrics) (nm : Model) (newm : Metrics),
      inp.collect_new_training_data = .ok d →
      inp.evaluate_current_models d = .ok cur →
      inp.train_new_models d = .ok nm →
      inp.evaluate_models nm d = .ok newm →
      ((should_update_models cur newm = false → update_models st inp = .ok st) ∧
       (should_update_models cur newm = true → inp.deploy_new_models nm = .ok () →
         update_models st inp
           = .ok ⟨st.current_model_version + 1/10, some nm⟩))) ∧
    (∃ st1, update_models st inp = .ok st1) ∧
    (∀ (trace : List (ℕ × CycleInputs Model Data)) (st0 : ModelUpdateState Model),
      ∃ st1, schedule_model_update st0 trace = .ok st1) := by
  refine ⟨?_, ?_, update_models_never_raises st inp,
    fun trace st0 => schedule_model_update_never_raises trace st0⟩
  · intro e he
    simp [update_models, he]
  · intro d cur nm newm h1 h2 h3 h4
    constructor
    · intro hs
      simp [update_models, update_models_body, h1, h2, h3, h4, hs,
        bind, Except.bind, pure, Except.pure]
    · intro hs hdep
      simp [update_models, update_models_body, h1, h2, h3, h4, hs, hdep,
        bind, Except.bind, pure, Except.pure]

/-- Witness for C6: with all externals succeeding and better candidate
metrics the version goes 1.0 to 1.1 and the models are replaced; with a
failing data collection the state is unchanged and no error escapes. -/
theorem update_cycle_error_containment_witness :
    update_models (⟨1, none⟩ : ModelUpdateState ℕ) cycle_inputs_promote
      = .ok ⟨1 + 1/10, some 42⟩ ∧
    update_models (⟨1, none⟩ : ModelUpdateState ℕ) cycle_inputs_fail = .ok ⟨1, none⟩ := by
  constructor
  · exact ((update_cycle_error_containment (⟨1, none⟩ : ModelUpdateState ℕ)
      cycle_inputs_promote).2.1 0 ⟨7/10, 1, 1/2⟩ 42 ⟨73/100, 95/100, 47/100⟩
      rfl rfl rfl rfl).2
      (by norm_num [should_update_models, metrics_comparison, improvement_threshold]) rfl
  · exact (update_cycle_error_containment (⟨1, none⟩ : ModelUpdateState ℕ)
      cycle_inputs_fail).1 .keyError rfl

/-! ## C1 — single-flight update cycles -/

lemma sched_lock_inv {n : ℕ} {s : SchedState n} (hr : SchedReachable s) :
    ∀ i, s.phase i = .cycling → s.update_lock = some i := by
  induction hr with
  | init =>
    intro i hi
    simp [sched_init] at hi
  | step hr hstep ih =>
    cases hstep with
    | trigger i hidle =>
      intro j hj
      rcases eq_or_ne j i with rfl | hne
      · simp at hj
      · have hj2 := by simpa [Function.update_noteq hne] using hj
        exact ih j hj2
    | acquire i hw hl =>
      intro j hj
      rcases eq_or_ne j i with rfl | hne
      · rfl
      · have hj2 := by simpa [Function.update_noteq hne] using hj
        have hlj := ih j hj2
        rw [hl] at hlj
        exact Option.noConfusion hlj
    | release_promote i hc hl =>
      intro j hj
      rcases eq_or_ne j i with rfl | hne
      · simp at hj
      · have hj2 := by simpa [Function.update_noteq hne] using hj
        have hlj := ih j hj2
        rw [hl] at hlj
        exact absurd (Option.some_injective _ hlj).symm hne
    | release_reject i hc hl =>
      intro j hj
      rcases eq_or_ne j i with rfl | hne
      · simp at hj
      · have hj2 := by simpa [Function.update_noteq hne] using hj
        have hlj := ih j hj2
        rw [hl] at hlj
        exact absurd (Option.some_injective _ hlj).symm hne
    | release_failure i hc hl =>
      intro j hj
      rcases eq_or_ne j i with rfl | hne
      · simp at hj
      · have hj2 := by simpa [Function.update_noteq hne] using hj
        have hlj := ih j hj2
        rw [hl] at hlj
        exact absurd (Option.some_injective _ hlj).symm hne

/-- C1: at most one model-update cycle runs concurrently: in every
state reachable under the lock discipline of `update_models` — lock
acquired at cycle start, released on every exit path (promotion,
rejection, failure) — any two tasks inside the
train-evaluate-promote critical section are the same task. -/
theorem single_flight_update {n : ℕ} (s : SchedState n) (hr : SchedReachable s)
    (i j : Fin n) (hi : s.phase i = .cycling) (hj : s.phase j = .cycling) : i = j := by
  have h1 := sched_lock_inv hr i hi
  have h2 := sched_lock_inv hr j hj
  rw [h1] at h2
  exact Option.some_injective _ h2

/-- Witness for C1: a concrete reachable state in which task 0 of 1 is
inside the critical section; mutual exclusion instantiates to 0 = 0. -/
theorem single_flight_update_witness : (0 : Fin 1) = 0 := by
  have h0 : SchedReachable (sched_init 1) := .init
  have h1 : SchedReachable
      ⟨(sched_init 1).update_lock, Function.update (sched_init 1).phase 0 .waiting⟩ :=
    .step h0 (.trigger _ 0 rfl)
  have h2 : SchedReachable
      ⟨some 0, Function.update (Function.update (sched_init 1).phase 0 .waiting) 0 .cycling⟩ :=
    .step h1 (.acquire _ 0 (by simp) rfl)
  exact single_flight_update _ h2 0 0 (by simp) (by simp)

end ASDM
